import Mathlib

/-!
Shallow embedding of `src/xknx/devices/light.py` (the `Light` device of the
xknx project) together with the collaborator contract of the sub-value
("RemoteValue") abstraction, which is external to the source file and is
therefore modelled from the specification (spec.md §3, §4.3, §6).

Conventions of the embedding:
* group addresses are natural numbers; a missing address is `none`;
* telegram payloads are lists of byte values; decoding of a payload into a
  typed value is the slot's responsibility and is modelled per slot kind;
* the effect of an operation is a pair of the resulting `Light` state and a
  list of observable events (bus-write requests, warning diagnostics, and
  invocations of the device update callback);
* Python action strings are embedded as lists of characters, and Python's
  `int()` builtin is modelled by `pyInt`; an uncaught `ValueError` is
  modelled as `Except.error`.
-/

namespace XKnx

/-- An inbound GROUP WRITE telegram: a destination group address and a raw
payload (list of byte values). -/
structure Telegram where
  dst : Nat
  payload : List Nat
deriving DecidableEq, Repr

/-- Modelled from the spec: a feature slot / sub-value handle (the
RemoteValue abstraction of spec.md §3 and §6, external to the source file).
It holds an optional write address, an optional state address and a cached
last-known value. -/
structure RemoteValue (α : Type) where
  group_address : Option Nat
  group_address_state : Option Nat
  value : Option α
deriving DecidableEq, Repr

namespace RemoteValue

variable {α : Type}

/-- Modelled from the spec: `initialized` is true iff at least one of the two
addresses was supplied at construction (spec.md §3, §6). -/
def initialized (rv : RemoteValue α) : Bool :=
  rv.group_address.isSome || rv.group_address_state.isSome

/-- Modelled from the spec: a slot matches a telegram destination iff the
destination equals its configured write address or its state address
(spec.md §4.3). -/
def matchesDst (rv : RemoteValue α) (dst : Nat) : Bool :=
  decide (rv.group_address = some dst) || decide (rv.group_address_state = some dst)

/-- Modelled from the spec: present a telegram to the slot (spec.md §4.3,
§6).  On an address match the payload is decoded per the slot's own encoding
and the cached value is updated; the returned flag records whether the
device-level update callback fired, which happens exactly when the decoded
value differs from the prior cached value (including the previously
uninitialized case).  Non-match and undecodable payloads are no-ops. -/
def process [DecidableEq α] (rv : RemoteValue α) (decode : List Nat → Option α)
    (t : Telegram) : RemoteValue α × Bool :=
  if rv.matchesDst t.dst then
    match decode t.payload with
    | none => (rv, false)
    | some v => ({ rv with value := some v }, decide (rv.value ≠ some v))
  else (rv, false)

/-- Whether presenting `payload` to the slot would decode successfully to a
value different from the cached one (the condition under which `process`
fires the update callback on a matching telegram). -/
def decodes_new [DecidableEq α] (rv : RemoteValue α) (decode : List Nat → Option α)
    (payload : List Nat) : Bool :=
  match decode payload with
  | none => false
  | some v => decide (rv.value ≠ some v)

/-- The slot state after a successful matching delivery: the cached value is
replaced by the decoded payload (unchanged if the payload does not decode). -/
def store (rv : RemoteValue α) (decode : List Nat → Option α)
    (payload : List Nat) : RemoteValue α :=
  match decode payload with
  | none => rv
  | some v => { rv with value := some v }

/-- Modelled from the spec: human-readable address summary of a slot used
only for diagnostics (spec.md §6). -/
def group_addr_str (rv : RemoteValue α) : String :=
  toString rv.group_address ++ "/" ++ toString rv.group_address_state

end RemoteValue

/-- Modelled from the spec: wire decoding of a DPT switch payload (one byte,
0 = off, 1 = on); the wire-level representation is the slot's concern
(spec.md §1, §6). -/
def decodeSwitch : List Nat → Option Bool
  | [0] => some false
  | [1] => some true
  | _ => none

/-- Modelled from the spec: wire decoding of a scaling payload over the byte
range 0..255 (spec.md §4.2, §6). -/
def decodeScaling : List Nat → Option Nat
  | [b] => if b ≤ 255 then some b else none
  | _ => none

/-- Modelled from the spec: wire decoding of an RGB color payload, three
bytes (spec.md §6). -/
def decodeRGB : List Nat → Option (List Nat)
  | [r, g, b] =>
      if r ≤ 255 && g ≤ 255 && b ≤ 255 then some [r, g, b] else none
  | _ => none

/-- Modelled from the spec: wire decoding of an RGBW color payload, four
color bytes (spec.md §6). -/
def decodeRGBW : List Nat → Option (List Nat)
  | [r, g, b, w] =>
      if r ≤ 255 && g ≤ 255 && b ≤ 255 && w ≤ 255 then some [r, g, b, w] else none
  | _ => none

/-- Modelled from the spec: wire decoding of a 2-byte unsigned payload
(spec.md §6). -/
def decode2Byte : List Nat → Option Nat
  | [hi, lo] => if hi ≤ 255 && lo ≤ 255 then some (hi * 256 + lo) else none
  | _ => none

/-- Identifier of one of the six feature slots of a `Light`, in the declared
order of `Light._iter_remote_values` (light.py lines 119-128). -/
inductive SlotId where
  | switch
  | brightness
  | color
  | rgbw
  | tunable_white
  | color_temperature
deriving DecidableEq, Repr, Fintype

/-- A value forwarded to a slot's bus-write primitive. -/
inductive BusVal where
  | b (x : Bool)
  | i (x : Int)
  | li (xs : List Int)
deriving DecidableEq, Repr

/-- Observable effect of a `Light` operation: a bus-write request forwarded
to a slot, a warning-level diagnostic, or an invocation of the device update
callback (which carries the device identity). -/
inductive Event where
  | busWrite (slot : SlotId) (val : BusVal)
  | warning (msg : String)
  | update (device : String)
deriving DecidableEq, Repr

/-- The `Light` device state (light.py lines 29-117): six feature slots plus
the stored kelvin bounds. -/
structure Light where
  name : String
  switch : RemoteValue Bool
  brightness : RemoteValue Nat
  color : RemoteValue (List Nat)
  rgbw : RemoteValue (List Nat)
  tunable_white : RemoteValue Nat
  color_temperature : RemoteValue Nat
  min_kelvin : Option Nat
  max_kelvin : Option Nat
deriving DecidableEq, Repr

namespace Light

/-- light.py line 33. -/
def DEFAULT_MIN_KELVIN : Nat := 2700

/-- light.py line 34. -/
def DEFAULT_MAX_KELVIN : Nat := 6000

/-- Constructor `Light.__init__` (light.py lines 36-117): each slot is built from its
optional write/state address pair with no cached value; `min_kelvin` and
`max_kelvin` are stored exactly as passed (their default argument is the
absent value `none`). -/
def init (name : String)
    (group_address_switch group_address_switch_state
      group_address_brightness group_address_brightness_state
      group_address_color group_address_color_state
      group_address_rgbw group_address_rgbw_state
      group_address_tunable_white group_address_tunable_white_state
      group_address_color_temperature group_address_color_temperature_state :
        Option Nat)
    (min_kelvin max_kelvin : Option Nat) : Light where
  name := name
  switch := ⟨group_address_switch, group_address_switch_state, none⟩
  brightness := ⟨group_address_brightness, group_address_brightness_state, none⟩
  color := ⟨group_address_color, group_address_color_state, none⟩
  rgbw := ⟨group_address_rgbw, group_address_rgbw_state, none⟩
  tunable_white := ⟨group_address_tunable_white, group_address_tunable_white_state, none⟩
  color_temperature :=
    ⟨group_address_color_temperature, group_address_color_temperature_state, none⟩
  min_kelvin := min_kelvin
  max_kelvin := max_kelvin

/-- Accessor `Device.get_name` (external device base, spec.md §6): the stable name. -/
def get_name (l : Light) : String := l.name

/-- light.py lines 130-133. -/
def supports_brightness (l : Light) : Bool := l.brightness.initialized

/-- light.py lines 135-138. -/
def supports_color (l : Light) : Bool := l.color.initialized

/-- light.py lines 140-143. -/
def supports_rgbw (l : Light) : Bool := l.rgbw.initialized

/-- light.py lines 145-148. -/
def supports_tunable_white (l : Light) : Bool := l.tunable_white.initialized

/-- light.py lines 150-153. -/
def supports_color_temperature (l : Light) : Bool :=
  l.color_temperature.initialized

/-- The five derived capability flags bundled, for stating that operations
preserve them. -/
def caps (l : Light) : Bool × Bool × Bool × Bool × Bool :=
  (l.supports_brightness, l.supports_color, l.supports_rgbw,
    l.supports_tunable_white, l.supports_color_temperature)

/-- light.py lines 236-240: `bool(self.switch.value)`; `None` reads false. -/
def state (l : Light) : Bool := l.switch.value.getD false

/-- light.py lines 242-244: forwards to the switch slot's boolean-set
primitive. -/
def set_on (l : Light) : Light × List Event :=
  (l, [Event.busWrite SlotId.switch (BusVal.b true)])

/-- light.py lines 246-248. -/
def set_off (l : Light) : Light × List Event :=
  (l, [Event.busWrite SlotId.switch (BusVal.b false)])

/-- light.py lines 250-253. -/
def current_brightness (l : Light) : Option Nat := l.brightness.value

/-- light.py lines 255-260. -/
def set_brightness (l : Light) (brightness : Int) : Light × List Event :=
  if !l.supports_brightness then
    (l, [Event.warning ("Dimming not supported for device " ++ l.get_name)])
  else
    (l, [Event.busWrite SlotId.brightness (BusVal.i brightness)])

/-- light.py lines 262-273.  The second component models the index access
`self.rgbw.value[3]`; on the length-4 values the RGBW decoder produces,
`v.get? 3` is exactly `some (v[3])`. -/
def current_color (l : Light) : Option (List Nat) × Option Nat :=
  if l.supports_rgbw then
    match l.rgbw.value with
    | none => (none, none)
    | some v => if v = [] then (none, none) else (some (v.take 3), v.get? 3)
  else (l.color.value, none)

/-- light.py lines 275-291. -/
def set_color (l : Light) (color : Int × Int × Int) (white : Option Int) :
    Light × List Event :=
  match white with
  | some w =>
    if l.supports_rgbw then
      (l, [Event.busWrite SlotId.rgbw (BusVal.li [color.1, color.2.1, color.2.2, w])])
    else
      (l, [Event.warning ("RGBW not supported for device " ++ l.get_name)])
  | none =>
    if l.supports_color then
      (l, [Event.busWrite SlotId.color (BusVal.li [color.1, color.2.1, color.2.2])])
    else
      (l, [Event.warning ("Colors not supported for device " ++ l.get_name)])

/-- light.py lines 293-296. -/
def current_tunable_white (l : Light) : Option Nat := l.tunable_white.value

/-- light.py lines 298-303. -/
def set_tunable_white (l : Light) (tunable_white : Int) : Light × List Event :=
  if !l.supports_tunable_white then
    (l, [Event.warning ("Tunable white not supported for device " ++ l.get_name)])
  else
    (l, [Event.busWrite SlotId.tunable_white (BusVal.i tunable_white)])

/-- light.py lines 305-308. -/
def current_color_temperature (l : Light) : Option Nat :=
  l.color_temperature.value

/-- light.py lines 310-318. -/
def set_color_temperature (l : Light) (color_temperature : Int) :
    Light × List Event :=
  if !l.supports_color_temperature then
    (l, [Event.warning
      ("Absolute Color Temperature not supported for device " ++ l.get_name)])
  else
    (l, [Event.busWrite SlotId.color_temperature (BusVal.i color_temperature)])

/-- Inbound entry point `Light.process_group_write` (light.py lines 337-340): present the
telegram to every owned slot by awaiting each slot's `process` in the order
yielded by `_iter_remote_values`; each slot's update callback fires inside
its own `process` call, so callback events appear in slot order. -/
def process_group_write (l : Light) (t : Telegram) : Light × List Event :=
  let psw := l.switch.process decodeSwitch t
  let pbr := l.brightness.process decodeScaling t
  let pco := l.color.process decodeRGB t
  let prg := l.rgbw.process decodeRGBW t
  let ptw := l.tunable_white.process decodeScaling t
  let pct := l.color_temperature.process decode2Byte t
  ({ l with
      switch := psw.1
      brightness := pbr.1
      color := pco.1
      rgbw := prg.1
      tunable_white := ptw.1
      color_temperature := pct.1 },
    (if psw.2 then [Event.update l.name] else []) ++
    (if pbr.2 then [Event.update l.name] else []) ++
    (if pco.2 then [Event.update l.name] else []) ++
    (if prg.2 then [Event.update l.name] else []) ++
    (if ptw.2 then [Event.update l.name] else []) ++
    (if pct.2 then [Event.update l.name] else []))

/-- Slot order of `Light._iter_remote_values` (light.py lines 119-128): the fixed declared
slot order. -/
def iter_remote_values : List SlotId :=
  [SlotId.switch, SlotId.brightness, SlotId.color, SlotId.rgbw,
    SlotId.tunable_white, SlotId.color_temperature]

/-- Present a telegram to one named slot (that slot's `process` primitive,
lifted to the device). -/
def process_slot (l : Light) (i : SlotId) (t : Telegram) : Light × Bool :=
  match i with
  | SlotId.switch =>
      let p := l.switch.process decodeSwitch t
      ({ l with switch := p.1 }, p.2)
  | SlotId.brightness =>
      let p := l.brightness.process decodeScaling t
      ({ l with brightness := p.1 }, p.2)
  | SlotId.color =>
      let p := l.color.process decodeRGB t
      ({ l with color := p.1 }, p.2)
  | SlotId.rgbw =>
      let p := l.rgbw.process decodeRGBW t
      ({ l with rgbw := p.1 }, p.2)
  | SlotId.tunable_white =>
      let p := l.tunable_white.process decodeScaling t
      ({ l with tunable_white := p.1 }, p.2)
  | SlotId.color_temperature =>
      let p := l.color_temperature.process decode2Byte t
      ({ l with color_temperature := p.1 }, p.2)

/-- Sequentially present a telegram to the slots named by `order`, calling
each named slot's `process` primitive once and collecting the update-callback
events in that order. -/
def process_in_order (l : Light) (order : List SlotId) (t : Telegram) :
    Light × List Event :=
  List.foldl
    (fun acc i =>
      let p := Light.process_slot acc.1 i t
      (p.1, acc.2 ++ if p.2 then [Event.update acc.1.name] else []))
    (l, []) order

/-- Whether slot `i`'s configured addresses match the destination `dst`. -/
def slot_matches (l : Light) (i : SlotId) (dst : Nat) : Bool :=
  match i with
  | SlotId.switch => l.switch.matchesDst dst
  | SlotId.brightness => l.brightness.matchesDst dst
  | SlotId.color => l.color.matchesDst dst
  | SlotId.rgbw => l.rgbw.matchesDst dst
  | SlotId.tunable_white => l.tunable_white.matchesDst dst
  | SlotId.color_temperature => l.color_temperature.matchesDst dst

/-- Whether slot `i` would decode `payload` to a value different from its
cached one. -/
def slot_decodes_new (l : Light) (i : SlotId) (payload : List Nat) : Bool :=
  match i with
  | SlotId.switch => l.switch.decodes_new decodeSwitch payload
  | SlotId.brightness => l.brightness.decodes_new decodeScaling payload
  | SlotId.color => l.color.decodes_new decodeRGB payload
  | SlotId.rgbw => l.rgbw.decodes_new decodeRGBW payload
  | SlotId.tunable_white => l.tunable_white.decodes_new decodeScaling payload
  | SlotId.color_temperature => l.color_temperature.decodes_new decode2Byte payload

/-- The light with exactly slot `i`'s cached value replaced by its decoding
of the telegram's payload. -/
def update_slot (l : Light) (i : SlotId) (t : Telegram) : Light :=
  match i with
  | SlotId.switch => { l with switch := l.switch.store decodeSwitch t.payload }
  | SlotId.brightness => { l with brightness := l.brightness.store decodeScaling t.payload }
  | SlotId.color => { l with color := l.color.store decodeRGB t.payload }
  | SlotId.rgbw => { l with rgbw := l.rgbw.store decodeRGBW t.payload }
  | SlotId.tunable_white => { l with tunable_white := l.tunable_white.store decodeScaling t.payload }
  | SlotId.color_temperature =>
      { l with color_temperature := l.color_temperature.store decode2Byte t.payload }

/-- Reachability invariant of a `Light` (spec.md §3): a slot constructed
without any address never acquires a cached value, since it can match no
telegram. -/
def wf (l : Light) : Prop :=
  (l.switch.initialized = false → l.switch.value = none) ∧
  (l.brightness.initialized = false → l.brightness.value = none) ∧
  (l.color.initialized = false → l.color.value = none) ∧
  (l.rgbw.initialized = false → l.rgbw.value = none) ∧
  (l.tunable_white.initialized = false → l.tunable_white.value = none) ∧
  (l.color_temperature.initialized = false → l.color_temperature.value = none)

/-- light.py lines 196-234: `__str__`, the single-line human-readable
summary listing the switch address and, only for supported features, their
addresses. -/
def toStr (l : Light) : String :=
  let str_brightness :=
    if !l.supports_brightness then ""
    else " brightness=\"" ++ l.brightness.group_addr_str ++ "\""
  let str_color :=
    if !l.supports_color then ""
    else " color=\"" ++ l.color.group_addr_str ++ "\""
  let str_rgbw :=
    if !l.supports_rgbw then ""
    else " rgbw=\"" ++ l.rgbw.group_addr_str ++ "\""
  let str_tunable_white :=
    if !l.supports_tunable_white then ""
    else " tunable white=\"" ++ l.tunable_white.group_addr_str ++ "\""
  let str_color_temperature :=
    if !l.supports_color_temperature then ""
    else " color temperature=\"" ++ l.color_temperature.group_addr_str ++ "\""
  "<Light name=\"" ++ l.name ++ "\" switch=\"" ++ l.switch.group_addr_str ++ "\"" ++
    str_brightness ++ str_color ++ str_rgbw ++ str_tunable_white ++
    str_color_temperature ++ " />"

end Light

/-- The configuration structure read by `Light.from_config` (light.py lines
155-175): one optional address pair per feature plus the optional kelvin
bounds. -/
structure LightConfig where
  group_address_switch : Option Nat
  group_address_switch_state : Option Nat
  group_address_brightness : Option Nat
  group_address_brightness_state : Option Nat
  group_address_color : Option Nat
  group_address_color_state : Option Nat
  group_address_rgbw : Option Nat
  group_address_rgbw_state : Option Nat
  group_address_tunable_white : Option Nat
  group_address_tunable_white_state : Option Nat
  group_address_color_temperature : Option Nat
  group_address_color_temperature_state : Option Nat
  min_kelvin : Option Nat
  max_kelvin : Option Nat
deriving DecidableEq, Repr

namespace Light

/-- Classmethod `Light.from_config` (light.py lines 155-194): addresses are read with no
default; `min_kelvin` / `max_kelvin` are read with the class defaults 2700 /
6000 (`config.get` with a default), so the constructed light always stores a
present kelvin bound. -/
def from_config (name : String) (config : LightConfig) : Light :=
  Light.init name
    config.group_address_switch config.group_address_switch_state
    config.group_address_brightness config.group_address_brightness_state
    config.group_address_color config.group_address_color_state
    config.group_address_rgbw config.group_address_rgbw_state
    config.group_address_tunable_white config.group_address_tunable_white_state
    config.group_address_color_temperature config.group_address_color_temperature_state
    (some (config.min_kelvin.getD DEFAULT_MIN_KELVIN))
    (some (config.max_kelvin.getD DEFAULT_MAX_KELVIN))

end Light

/-- Python's str.startswith on the character-list embedding of strings:
`startswith pre s` reports whether `s` begins with `pre` (external language
semantics; the pattern argument comes first so that the test reduces on a
not-fully-known subject string). -/
def startswith : List Char → List Char → Bool
  | [], _ => true
  | _ :: _, [] => false
  | b :: bs, a :: as => a == b && startswith bs as

/-- Digit run of a Python decimal integer literal: one or more digits with
single underscores allowed between digits (models the `int()` builtin of the
host language, which is external to the source file). -/
def pyDigitsGo : List Char → Nat → Option Nat
  | [], acc => some acc
  | '_' :: c :: rest, acc =>
      if c.isDigit then pyDigitsGo rest (acc * 10 + (c.toNat - 48)) else none
  | c :: rest, acc =>
      if c.isDigit then pyDigitsGo rest (acc * 10 + (c.toNat - 48)) else none

/-- Parse a nonempty digit run (with Python's inner underscores). -/
def pyDigits : List Char → Option Nat
  | [] => none
  | c :: rest => if c.isDigit then pyDigitsGo rest (c.toNat - 48) else none

/-- Strip leading and trailing whitespace, as Python's `int()` does. -/
def pyStrip (cs : List Char) : List Char :=
  ((cs.dropWhile Char.isWhitespace).reverse.dropWhile Char.isWhitespace).reverse

/-- Modelled from Python's `int()` builtin (external language semantics):
strip surrounding whitespace, accept one optional sign, then a digit run;
`none` models the `ValueError` raised on any other input. -/
def pyInt (cs : List Char) : Option Int :=
  match pyStrip cs with
  | '+' :: rest => (pyDigits rest).map Int.ofNat
  | '-' :: rest => (pyDigits rest).map (fun n => -(n : Int))
  | rest => (pyDigits rest).map Int.ofNat

namespace Light

/-- Action dispatcher `Light.do` (light.py lines 320-335).  The action string is embedded as a
list of characters.  `int(action[k:])` is modelled by `pyInt`; when it fails
the `ValueError` propagates out of `do` uncaught, modelled as
`Except.error`. -/
def doAction (l : Light) (action : List Char) : Except String (Light × List Event) :=
  if action = String.toList "on" then Except.ok l.set_on
  else if action = String.toList "off" then Except.ok l.set_off
  else if startswith (String.toList "brightness:") action then
    match pyInt (action.drop 11) with
    | some n => Except.ok (l.set_brightness n)
    | none => Except.error "ValueError: invalid literal for int() with base 10"
  else if startswith (String.toList "tunable_white:") action then
    match pyInt (action.drop 14) with
    | some n => Except.ok (l.set_tunable_white n)
    | none => Except.error "ValueError: invalid literal for int() with base 10"
  else if startswith (String.toList "color_temperature:") action then
    match pyInt (action.drop 18) with
    | some n => Except.ok (l.set_color_temperature n)
    | none => Except.error "ValueError: invalid literal for int() with base 10"
  else
    Except.ok (l,
      [Event.warning ("Could not understand action " ++ String.mk action ++
        " for device " ++ l.get_name)])

end Light

/-! ## Sample devices used by the witness theorems -/

/-- A light with every feature's write address configured. -/
def sampleFull : Light :=
  Light.init "full" (some 1) (some 2) (some 3) (some 4) (some 5) (some 6)
    (some 7) (some 8) (some 9) (some 10) (some 11) (some 12)
    (some 2500) (some 5500)

/-- A light with only the switch address configured. -/
def sampleBare : Light :=
  Light.init "bare" (some 1) none none none none none none none none none
    none none none none

/-- An RGBW-capable light carrying cached values in both the rgbw slot and
the plain color slot. -/
def sampleRGBW : Light where
  name := "rgbw"
  switch := ⟨some 1, none, none⟩
  brightness := ⟨none, none, none⟩
  color := ⟨some 5, none, some [9, 9, 9]⟩
  rgbw := ⟨some 7, none, some [10, 20, 30, 40]⟩
  tunable_white := ⟨none, none, none⟩
  color_temperature := ⟨none, none, none⟩
  min_kelvin := none
  max_kelvin := none

/-! ## Helper lemmas about the slot contract -/

namespace RemoteValue

variable {α : Type}

theorem process_not_matches [DecidableEq α] (rv : RemoteValue α)
    (decode : List Nat → Option α) (t : Telegram)
    (h : rv.matchesDst t.dst = false) : rv.process decode t = (rv, false) := by
  unfold process
  rw [h]
  simp

theorem process_match_new [DecidableEq α] (rv : RemoteValue α)
    (decode : List Nat → Option α) (t : Telegram)
    (hm : rv.matchesDst t.dst = true)
    (hn : rv.decodes_new decode t.payload = true) :
    rv.process decode t = (rv.store decode t.payload, true) := by
  unfold process store
  rw [hm]
  simp only [if_true]
  unfold decodes_new at hn
  cases hd : decode t.payload with
  | none => rw [hd] at hn; simp at hn
  | some v =>
      rw [hd] at hn
      simp only [decide_eq_true_eq] at hn
      simp [hn]

theorem process_initialized [DecidableEq α] (rv : RemoteValue α)
    (decode : List Nat → Option α) (t : Telegram) :
    ((rv.process decode t).1).initialized = rv.initialized := by
  unfold process
  split
  · cases hd : decode t.payload <;> simp [initialized]
  · rfl

theorem not_initialized_matchesDst (rv : RemoteValue α) (dst : Nat)
    (h : rv.initialized = false) : rv.matchesDst dst = false := by
  unfold initialized at h
  unfold matchesDst
  cases hga : rv.group_address <;> cases hgs : rv.group_address_state <;>
    rw [hga, hgs] at h <;> simp_all

theorem process_not_initialized [DecidableEq α] (rv : RemoteValue α)
    (decode : List Nat → Option α) (t : Telegram)
    (h : rv.initialized = false) : rv.process decode t = (rv, false) :=
  process_not_matches rv decode t (not_initialized_matchesDst rv t.dst h)

end RemoteValue

namespace Light

/-! Projection equations for `process_group_write`, all definitional. -/

theorem pgw_switch (l : Light) (t : Telegram) :
    ((l.process_group_write t).1).switch = (l.switch.process decodeSwitch t).1 := rfl

theorem pgw_brightness (l : Light) (t : Telegram) :
    ((l.process_group_write t).1).brightness =
      (l.brightness.process decodeScaling t).1 := rfl

theorem pgw_color (l : Light) (t : Telegram) :
    ((l.process_group_write t).1).color = (l.color.process decodeRGB t).1 := rfl

theorem pgw_rgbw (l : Light) (t : Telegram) :
    ((l.process_group_write t).1).rgbw = (l.rgbw.process decodeRGBW t).1 := rfl

theorem pgw_tunable_white (l : Light) (t : Telegram) :
    ((l.process_group_write t).1).tunable_white =
      (l.tunable_white.process decodeScaling t).1 := rfl

theorem pgw_color_temperature (l : Light) (t : Telegram) :
    ((l.process_group_write t).1).color_temperature =
      (l.color_temperature.process decode2Byte t).1 := rfl

theorem pgw_name (l : Light) (t : Telegram) :
    ((l.process_group_write t).1).name = l.name := rfl

theorem pgw_min_kelvin (l : Light) (t : Telegram) :
    ((l.process_group_write t).1).min_kelvin = l.min_kelvin := rfl

theorem pgw_max_kelvin (l : Light) (t : Telegram) :
    ((l.process_group_write t).1).max_kelvin = l.max_kelvin := rfl

/-- The capability flags are untouched by telegram processing. -/
theorem process_group_write_caps (l : Light) (t : Telegram) :
    ((l.process_group_write t).1).caps = l.caps := by
  unfold caps supports_brightness supports_color supports_rgbw
    supports_tunable_white supports_color_temperature
  rw [pgw_brightness, pgw_color, pgw_rgbw, pgw_tunable_white,
    pgw_color_temperature]
  rw [RemoteValue.process_initialized, RemoteValue.process_initialized,
    RemoteValue.process_initialized, RemoteValue.process_initialized,
    RemoteValue.process_initialized]

/-! The outbound setters leave the device state untouched (the cached value
changes only when the resulting bus telegram is processed back). -/

theorem set_on_fst (l : Light) : (l.set_on).1 = l := rfl

theorem set_off_fst (l : Light) : (l.set_off).1 = l := rfl

theorem set_brightness_fst (l : Light) (n : Int) :
    (l.set_brightness n).1 = l := by
  unfold set_brightness
  split <;> rfl

theorem set_color_fst (l : Light) (c : Int × Int × Int) (w : Option Int) :
    (l.set_color c w).1 = l := by
  unfold set_color
  cases w <;> dsimp only <;> split <;> rfl

theorem set_tunable_white_fst (l : Light) (n : Int) :
    (l.set_tunable_white n).1 = l := by
  unfold set_tunable_white
  split <;> rfl

theorem set_color_temperature_fst (l : Light) (n : Int) :
    (l.set_color_temperature n).1 = l := by
  unfold set_color_temperature
  split <;> rfl

/-- Every `Except.ok` outcome of the action dispatcher carries the device
state unchanged. -/
theorem doAction_ok_fst (l : Light) (a : List Char) (l' : Light)
    (e : List Event) (h : l.doAction a = Except.ok (l', e)) : l' = l := by
  unfold doAction at h
  split at h
  · injection h with h2
    exact (congrArg Prod.fst h2).symm.trans (set_on_fst l)
  · split at h
    · injection h with h2
      exact (congrArg Prod.fst h2).symm.trans (set_off_fst l)
    · split at h
      · split at h
        · injection h with h2
          exact (congrArg Prod.fst h2).symm.trans (set_brightness_fst l _)
        · exact Except.noConfusion h
      · split at h
        · split at h
          · injection h with h2
            exact (congrArg Prod.fst h2).symm.trans (set_tunable_white_fst l _)
          · exact Except.noConfusion h
        · split at h
          · split at h
            · injection h with h2
              exact (congrArg Prod.fst h2).symm.trans
                (set_color_temperature_fst l _)
            · exact Except.noConfusion h
          · injection h with h2
            exact (congrArg Prod.fst h2).symm

/-! The reachability invariant holds at construction and is preserved by
telegram processing: a slot with no address can match no telegram. -/

theorem wf_init (name : String)
    (gs gss gb gbs gc gcs gr grs gtw gtws gct gcts mkv xkv : Option Nat) :
    (Light.init name gs gss gb gbs gc gcs gr grs gtw gtws gct gcts mkv xkv).wf := by
  unfold wf init
  exact ⟨fun _ => rfl, fun _ => rfl, fun _ => rfl, fun _ => rfl,
    fun _ => rfl, fun _ => rfl⟩

theorem wf_process_group_write (l : Light) (t : Telegram) (h : l.wf) :
    ((l.process_group_write t).1).wf := by
  obtain ⟨h1, h2, h3, h4, h5, h6⟩ := h
  refine ⟨?_, ?_, ?_, ?_, ?_, ?_⟩
  · rw [pgw_switch, RemoteValue.process_initialized]
    intro hini
    rw [RemoteValue.process_not_initialized _ _ _ hini]
    exact h1 hini
  · rw [pgw_brightness, RemoteValue.process_initialized]
    intro hini
    rw [RemoteValue.process_not_initialized _ _ _ hini]
    exact h2 hini
  · rw [pgw_color, RemoteValue.process_initialized]
    intro hini
    rw [RemoteValue.process_not_initialized _ _ _ hini]
    exact h3 hini
  · rw [pgw_rgbw, RemoteValue.process_initialized]
    intro hini
    rw [RemoteValue.process_not_initialized _ _ _ hini]
    exact h4 hini
  · rw [pgw_tunable_white, RemoteValue.process_initialized]
    intro hini
    rw [RemoteValue.process_not_initialized _ _ _ hini]
    exact h5 hini
  · rw [pgw_color_temperature, RemoteValue.process_initialized]
    intro hini
    rw [RemoteValue.process_not_initialized _ _ _ hini]
    exact h6 hini

end Light

/-! ## Claim theorems -/

namespace Light

/-- C1: for every feature F in {brightness, color, rgbw, tunable_white,
color_temperature}, `supports_F` is true iff the Light was constructed with
a non-absent write or state address for F, and no operation (setters,
`process_group_write`, `do`) ever changes any `supports_F` after
construction (`__str__` is a pure function of the state and cannot). -/
theorem supports_flags_invariant (nm : String)
    (gs gss gb gbs gc gcs gr grs gtw gtws gct gcts mkv xkv : Option Nat)
    (l : Light) (n m k : Int) (c : Int × Int × Int) (w : Option Int)
    (t : Telegram) (a : List Char) (l' : Light) (e : List Event) :
    ((Light.init nm gs gss gb gbs gc gcs gr grs gtw gtws gct gcts mkv xkv).caps =
      (gb.isSome || gbs.isSome, gc.isSome || gcs.isSome,
        gr.isSome || grs.isSome, gtw.isSome || gtws.isSome,
        gct.isSome || gcts.isSome)) ∧
    ((l.set_on).1.caps = l.caps) ∧
    ((l.set_off).1.caps = l.caps) ∧
    ((l.set_brightness n).1.caps = l.caps) ∧
    ((l.set_color c w).1.caps = l.caps) ∧
    ((l.set_tunable_white m).1.caps = l.caps) ∧
    ((l.set_color_temperature k).1.caps = l.caps) ∧
    (((l.process_group_write t).1).caps = l.caps) ∧
    (l.doAction a = Except.ok (l', e) → l'.caps = l.caps) := by
  refine ⟨rfl, rfl, rfl, ?_, ?_, ?_, ?_, ?_, ?_⟩
  · rw [set_brightness_fst]
  · rw [set_color_fst]
  · rw [set_tunable_white_fst]
  · rw [set_color_temperature_fst]
  · exact process_group_write_caps l t
  · intro h
    rw [doAction_ok_fst l a l' e h]

theorem supports_flags_invariant_witness :
    (Light.init "w" (some 1) none (some 2) none none none (some 3) none none
        none none (some 4) none none).caps =
      (true, false, true, false, true) ∧
    sampleFull.caps = sampleFull.caps := by
  have h := supports_flags_invariant "w" (some 1) none (some 2) none none none
    (some 3) none none none none (some 4) none none sampleFull 1 2 3 (4, 5, 6)
    (some 7) ⟨1, [1]⟩ (String.toList "on") sampleFull
    [Event.busWrite SlotId.switch (BusVal.b true)]
  exact ⟨h.1, h.2.2.2.2.2.2.2.2 rfl⟩

/-- C2: `set_color(rgb, white=W)` on an RGBW-capable light forwards exactly
the 4-component value `rgb ++ [W]` to the rgbw slot's set primitive; without
RGBW support it performs no bus write at all (in particular no fallback to
the plain color slot) and emits a warning. -/
theorem set_color_rgbw_forwarding (l : Light) (r g b w : Int) :
    (l.supports_rgbw = true →
      l.set_color (r, g, b) (some w) =
        (l, [Event.busWrite SlotId.rgbw (BusVal.li [r, g, b, w])])) ∧
    (l.supports_rgbw = false →
      l.set_color (r, g, b) (some w) =
        (l, [Event.warning ("RGBW not supported for device " ++ l.get_name)])) := by
  constructor <;> intro h <;> unfold set_color <;> rw [h] <;> rfl

theorem set_color_rgbw_forwarding_witness :
    sampleRGBW.set_color (1, 2, 3) (some 4) =
      (sampleRGBW, [Event.busWrite SlotId.rgbw (BusVal.li [1, 2, 3, 4])]) ∧
    sampleBare.set_color (1, 2, 3) (some 4) =
      (sampleBare,
        [Event.warning ("RGBW not supported for device " ++ sampleBare.get_name)]) :=
  ⟨(set_color_rgbw_forwarding sampleRGBW 1 2 3 4).1 rfl,
    (set_color_rgbw_forwarding sampleBare 1 2 3 4).2 rfl⟩

/-- C3: every feature setter invoked without the corresponding capability
warns naming the device, performs no bus operation and changes no state,
while every read accessor on an unsupported feature silently returns the
absent value (`wf` is the reachability invariant: an address-less slot never
acquires a cached value). -/
theorem capability_gate_asymmetry (l : Light) (n m k : Int)
    (c : Int × Int × Int) (w : Int) :
    (l.supports_brightness = false →
      l.set_brightness n =
        (l, [Event.warning ("Dimming not supported for device " ++ l.get_name)])) ∧
    (l.supports_color = false →
      l.set_color c none =
        (l, [Event.warning ("Colors not supported for device " ++ l.get_name)])) ∧
    (l.supports_rgbw = false →
      l.set_color c (some w) =
        (l, [Event.warning ("RGBW not supported for device " ++ l.get_name)])) ∧
    (l.supports_tunable_white = false →
      l.set_tunable_white m =
        (l, [Event.warning
          ("Tunable white not supported for device " ++ l.get_name)])) ∧
    (l.supports_color_temperature = false →
      l.set_color_temperature k =
        (l, [Event.warning
          ("Absolute Color Temperature not supported for device " ++
            l.get_name)])) ∧
    (l.wf → l.supports_brightness = false → l.current_brightness = none) ∧
    (l.wf → l.supports_color = false → l.supports_rgbw = false →
      l.current_color = (none, none)) ∧
    (l.wf → l.supports_tunable_white = false →
      l.current_tunable_white = none) ∧
    (l.wf → l.supports_color_temperature = false →
      l.current_color_temperature = none) := by
  refine ⟨?_, ?_, ?_, ?_, ?_, ?_, ?_, ?_, ?_⟩
  · intro h
    unfold set_brightness
    rw [h]
    rfl
  · intro h
    unfold set_color
    rw [h]
    rfl
  · intro h
    unfold set_color
    rw [h]
    rfl
  · intro h
    unfold set_tunable_white
    rw [h]
    rfl
  · intro h
    unfold set_color_temperature
    rw [h]
    rfl
  · intro hwf h
    exact hwf.2.1 h
  · intro hwf hco hrg
    unfold current_color
    rw [hrg]
    simp [hwf.2.2.1 hco]
  · intro hwf h
    exact hwf.2.2.2.2.1 h
  · intro hwf h
    exact hwf.2.2.2.2.2 h

theorem capability_gate_asymmetry_witness :
    (sampleBare.set_brightness 1 =
      (sampleBare,
        [Event.warning ("Dimming not supported for device " ++ sampleBare.get_name)])) ∧
    (sampleBare.set_color (4, 5, 6) none =
      (sampleBare,
        [Event.warning ("Colors not supported for device " ++ sampleBare.get_name)])) ∧
    (sampleBare.set_color (4, 5, 6) (some 7) =
      (sampleBare,
        [Event.warning ("RGBW not supported for device " ++ sampleBare.get_name)])) ∧
    (sampleBare.set_tunable_white 2 =
      (sampleBare,
        [Event.warning
          ("Tunable white not supported for device " ++ sampleBare.get_name)])) ∧
    (sampleBare.set_color_temperature 3 =
      (sampleBare,
        [Event.warning
          ("Absolute Color Temperature not supported for device " ++
            sampleBare.get_name)])) ∧
    sampleBare.current_brightness = none ∧
    sampleBare.current_color = (none, none) ∧
    sampleBare.current_tunable_white = none ∧
    sampleBare.current_color_temperature = none := by
  have hwf : sampleBare.wf :=
    wf_init "bare" (some 1) none none none none none none none none none
      none none none none
  have h := capability_gate_asymmetry sampleBare 1 2 3 (4, 5, 6) 7
  exact ⟨h.1 rfl, h.2.1 rfl, h.2.2.1 rfl, h.2.2.2.1 rfl, h.2.2.2.2.1 rfl,
    h.2.2.2.2.2.1 hwf rfl, h.2.2.2.2.2.2.1 hwf rfl rfl,
    h.2.2.2.2.2.2.2.1 hwf rfl, h.2.2.2.2.2.2.2.2 hwf rfl⟩

/-- C4: `process_group_write` presents the telegram to all six owned slots —
regardless of capability state — by calling each slot's process primitive
exactly once, in the fixed order switch, brightness, color, rgbw,
tunable_white, color_temperature: it coincides with sequentially probing
exactly the slots listed by `_iter_remote_values`. -/
theorem process_probes_every_slot (l : Light) (t : Telegram) :
    l.process_group_write t = l.process_in_order iter_remote_values t ∧
    iter_remote_values =
      [SlotId.switch, SlotId.brightness, SlotId.color, SlotId.rgbw,
        SlotId.tunable_white, SlotId.color_temperature] := by
  refine ⟨?_, rfl⟩
  cases l
  simp [process_group_write, process_in_order, process_slot,
    iter_remote_values, List.foldl, List.append_assoc]

/-- C5: a telegram matching no slot's configured address leaves the whole
device state unchanged and fires no callback; a telegram matching exactly
one slot whose payload decodes to a value differing from that slot's cached
one updates only that slot and fires the update callback exactly once. -/
theorem process_frame_effect (l : Light) (t : Telegram) :
    ((∀ i, l.slot_matches i t.dst = false) →
      l.process_group_write t = (l, [])) ∧
    (∀ i, l.slot_matches i t.dst = true →
      (∀ j, j ≠ i → l.slot_matches j t.dst = false) →
      l.slot_decodes_new i t.payload = true →
      l.process_group_write t =
        (l.update_slot i t, [Event.update l.name])) := by
  constructor
  · intro h
    have hsw := h SlotId.switch
    have hbr := h SlotId.brightness
    have hco := h SlotId.color
    have hrg := h SlotId.rgbw
    have htw := h SlotId.tunable_white
    have hct := h SlotId.color_temperature
    simp only [Light.process_group_write]
    rw [RemoteValue.process_not_matches _ _ _ hsw,
      RemoteValue.process_not_matches _ _ _ hbr,
      RemoteValue.process_not_matches _ _ _ hco,
      RemoteValue.process_not_matches _ _ _ hrg,
      RemoteValue.process_not_matches _ _ _ htw,
      RemoteValue.process_not_matches _ _ _ hct]
    rfl
  · intro i hm hothers hnew
    cases i with
    | switch =>
        have hbr := hothers SlotId.brightness (by decide)
        have hco := hothers SlotId.color (by decide)
        have hrg := hothers SlotId.rgbw (by decide)
        have htw := hothers SlotId.tunable_white (by decide)
        have hct := hothers SlotId.color_temperature (by decide)
        simp only [Light.process_group_write]
        rw [RemoteValue.process_match_new _ _ _ hm hnew,
          RemoteValue.process_not_matches _ _ _ hbr,
          RemoteValue.process_not_matches _ _ _ hco,
          RemoteValue.process_not_matches _ _ _ hrg,
          RemoteValue.process_not_matches _ _ _ htw,
          RemoteValue.process_not_matches _ _ _ hct]
        rfl
    | brightness =>
        have hsw := hothers SlotId.switch (by decide)
        have hco := hothers SlotId.color (by decide)
        have hrg := hothers SlotId.rgbw (by decide)
        have htw := hothers SlotId.tunable_white (by decide)
        have hct := hothers SlotId.color_temperature (by decide)
        simp only [Light.process_group_write]
        rw [RemoteValue.process_not_matches _ _ _ hsw,
          RemoteValue.process_match_new _ _ _ hm hnew,
          RemoteValue.process_not_matches _ _ _ hco,
          RemoteValue.process_not_matches _ _ _ hrg,
          RemoteValue.process_not_matches _ _ _ htw,
          RemoteValue.process_not_matches _ _ _ hct]
        rfl
    | color =>
        have hsw := hothers SlotId.switch (by decide)
        have hbr := hothers SlotId.brightness (by decide)
        have hrg := hothers SlotId.rgbw (by decide)
        have htw := hothers SlotId.tunable_white (by decide)
        have hct := hothers SlotId.color_temperature (by decide)
        simp only [Light.process_group_write]
        rw [RemoteValue.process_not_matches _ _ _ hsw,
          RemoteValue.process_not_matches _ _ _ hbr,
          RemoteValue.process_match_new _ _ _ hm hnew,
          RemoteValue.process_not_matches _ _ _ hrg,
          RemoteValue.process_not_matches _ _ _ htw,
          RemoteValue.process_not_matches _ _ _ hct]
        rfl
    | rgbw =>
        have hsw := hothers SlotId.switch (by decide)
        have hbr := hothers SlotId.brightness (by decide)
        have hco := hothers SlotId.color (by decide)
        have htw := hothers SlotId.tunable_white (by decide)
        have hct := hothers SlotId.color_temperature (by decide)
        simp only [Light.process_group_write]
        rw [RemoteValue.process_not_matches _ _ _ hsw,
          RemoteValue.process_not_matches _ _ _ hbr,
          RemoteValue.process_not_matches _ _ _ hco,
          RemoteValue.process_match_new _ _ _ hm hnew,
          RemoteValue.process_not_matches _ _ _ htw,
          RemoteValue.process_not_matches _ _ _ hct]
        rfl
    | tunable_white =>
        have hsw := hothers SlotId.switch (by decide)
        have hbr := hothers SlotId.brightness (by decide)
        have hco := hothers SlotId.color (by decide)
        have hrg := hothers SlotId.rgbw (by decide)
        have hct := hothers SlotId.color_temperature (by decide)
        simp only [Light.process_group_write]
        rw [RemoteValue.process_not_matches _ _ _ hsw,
          RemoteValue.process_not_matches _ _ _ hbr,
          RemoteValue.process_not_matches _ _ _ hco,
          RemoteValue.process_not_matches _ _ _ hrg,
          RemoteValue.process_match_new _ _ _ hm hnew,
          RemoteValue.process_not_matches _ _ _ hct]
        rfl
    | color_temperature =>
        have hsw := hothers SlotId.switch (by decide)
        have hbr := hothers SlotId.brightness (by decide)
        have hco := hothers SlotId.color (by decide)
        have hrg := hothers SlotId.rgbw (by decide)
        have htw := hothers SlotId.tunable_white (by decide)
        simp only [Light.process_group_write]
        rw [RemoteValue.process_not_matches _ _ _ hsw,
          RemoteValue.process_not_matches _ _ _ hbr,
          RemoteValue.process_not_matches _ _ _ hco,
          RemoteValue.process_not_matches _ _ _ hrg,
          RemoteValue.process_not_matches _ _ _ htw,
          RemoteValue.process_match_new _ _ _ hm hnew]
        rfl

theorem process_frame_effect_witness :
    sampleFull.process_group_write ⟨99, [1]⟩ = (sampleFull, []) ∧
    sampleFull.process_group_write ⟨3, [128]⟩ =
      (sampleFull.update_slot SlotId.brightness ⟨3, [128]⟩,
        [Event.update sampleFull.name]) :=
  ⟨(process_frame_effect sampleFull ⟨99, [1]⟩).1 (by decide),
    (process_frame_effect sampleFull ⟨3, [128]⟩).2 SlotId.brightness
      (by decide) (by decide) (by decide)⟩

/-- C6: action-string dispatch is equivalent to the typed setters:
`do("on")` performs exactly `set_on()`, `do("off")` exactly `set_off()`, and
each of the three recognized prefixes followed by a string the int() builtin
accepts performs exactly the corresponding typed setter on the parsed
integer. -/
theorem do_dispatch_equivalence (l : Light) (s : List Char) (n : Int) :
    (l.doAction (String.toList "on") = Except.ok l.set_on) ∧
    (l.doAction (String.toList "off") = Except.ok l.set_off) ∧
    (pyInt s = some n →
      l.doAction (String.toList "brightness:" ++ s) =
          Except.ok (l.set_brightness n) ∧
        l.doAction (String.toList "tunable_white:" ++ s) =
          Except.ok (l.set_tunable_white n) ∧
        l.doAction (String.toList "color_temperature:" ++ s) =
          Except.ok (l.set_color_temperature n)) := by
  refine ⟨rfl, rfl, ?_⟩
  intro h
  refine ⟨?_, ?_, ?_⟩
  · have e : l.doAction (String.toList "brightness:" ++ s) =
        (match pyInt s with
          | some n => Except.ok (l.set_brightness n)
          | none =>
              Except.error "ValueError: invalid literal for int() with base 10") :=
      rfl
    rw [e, h]
  · have e : l.doAction (String.toList "tunable_white:" ++ s) =
        (match pyInt s with
          | some n => Except.ok (l.set_tunable_white n)
          | none =>
              Except.error "ValueError: invalid literal for int() with base 10") :=
      rfl
    rw [e, h]
  · have e : l.doAction (String.toList "color_temperature:" ++ s) =
        (match pyInt s with
          | some n => Except.ok (l.set_color_temperature n)
          | none =>
              Except.error "ValueError: invalid literal for int() with base 10") :=
      rfl
    rw [e, h]

theorem do_dispatch_equivalence_witness :
    sampleFull.doAction (String.toList "on") = Except.ok sampleFull.set_on ∧
    sampleFull.doAction (String.toList "brightness:128") =
      Except.ok (sampleFull.set_brightness 128) ∧
    sampleFull.doAction (String.toList "tunable_white:128") =
      Except.ok (sampleFull.set_tunable_white 128) ∧
    sampleFull.doAction (String.toList "color_temperature:128") =
      Except.ok (sampleFull.set_color_temperature 128) := by
  have h := do_dispatch_equivalence sampleFull (String.toList "128") 128
  exact ⟨h.1, (h.2.2 rfl).1, (h.2.2 rfl).2.1, (h.2.2 rfl).2.2⟩

/-- C7: an action string that is neither "on" nor "off" and carries none of
the three recognized prefixes makes `do` emit a single warning naming the
device and the unparsed string, perform no typed operation, change no state
and raise no error. -/
theorem do_unrecognized_warns (l : Light) (action : List Char)
    (h1 : ¬ action = String.toList "on")
    (h2 : ¬ action = String.toList "off")
    (h3 : startswith (String.toList "brightness:") action = false)
    (h4 : startswith (String.toList "tunable_white:") action = false)
    (h5 : startswith (String.toList "color_temperature:") action = false) :
    l.doAction action =
      Except.ok (l,
        [Event.warning ("Could not understand action " ++ String.mk action ++
          " for device " ++ l.get_name)]) := by
  unfold doAction
  rw [if_neg h1, if_neg h2, if_neg (by rw [h3]; exact Bool.false_ne_true),
    if_neg (by rw [h4]; exact Bool.false_ne_true),
    if_neg (by rw [h5]; exact Bool.false_ne_true)]

theorem do_unrecognized_warns_witness :
    sampleBare.doAction (String.toList "bogus") =
      Except.ok (sampleBare,
        [Event.warning ("Could not understand action " ++
          String.mk (String.toList "bogus") ++ " for device " ++
          sampleBare.get_name)]) :=
  do_unrecognized_warns sampleBare (String.toList "bogus") (by decide)
    (by decide) (by decide) (by decide) (by decide)

/-- C8 as stated is false: `do("brightness:abc")` propagates the int()
parse failure out of `do` as an uncaught error instead of handling it
locally. -/
theorem do_parse_error_counterexample :
    sampleBare.doAction (String.toList "brightness:abc") =
      Except.error "ValueError: invalid literal for int() with base 10" := rfl

/-- C8 amended: `do` propagates an error exactly when the action carries one
of the three recognized prefixes with a suffix rejected by the int()
builtin; every other action string (including all well-formed commands and
all unrecognized strings) completes without error. -/
theorem do_error_characterization (l : Light) (action : List Char) :
    (∀ msg, l.doAction action = Except.error msg →
      (startswith (String.toList "brightness:") action = true ∧
        pyInt (action.drop 11) = none) ∨
      (startswith (String.toList "tunable_white:") action = true ∧
        pyInt (action.drop 14) = none) ∨
      (startswith (String.toList "color_temperature:") action = true ∧
        pyInt (action.drop 18) = none)) ∧
    ((startswith (String.toList "brightness:") action = true →
        pyInt (action.drop 11) ≠ none) →
      (startswith (String.toList "tunable_white:") action = true →
        pyInt (action.drop 14) ≠ none) →
      (startswith (String.toList "color_temperature:") action = true →
        pyInt (action.drop 18) ≠ none) →
      ∃ r, l.doAction action = Except.ok r) := by
  constructor
  · intro msg h
    unfold doAction at h
    split at h
    · exact Except.noConfusion h
    · split at h
      · exact Except.noConfusion h
      · split at h
        · rename_i hpre
          split at h
          · exact Except.noConfusion h
          · rename_i hnone
            exact Or.inl ⟨hpre, hnone⟩
        · split at h
          · rename_i hpre
            split at h
            · exact Except.noConfusion h
            · rename_i hnone
              exact Or.inr (Or.inl ⟨hpre, hnone⟩)
          · split at h
            · rename_i hpre
              split at h
              · exact Except.noConfusion h
              · rename_i hnone
                exact Or.inr (Or.inr ⟨hpre, hnone⟩)
            · exact Except.noConfusion h
  · intro hb ht hc
    unfold doAction
    split
    · exact ⟨_, rfl⟩
    · split
      · exact ⟨_, rfl⟩
      · split
        · rename_i hpre
          cases hp : pyInt (action.drop 11) with
          | some v => exact ⟨_, rfl⟩
          | none => exact absurd hp (hb hpre)
        · split
          · rename_i hpre
            cases hp : pyInt (action.drop 14) with
            | some v => exact ⟨_, rfl⟩
            | none => exact absurd hp (ht hpre)
          · split
            · rename_i hpre
              cases hp : pyInt (action.drop 18) with
              | some v => exact ⟨_, rfl⟩
              | none => exact absurd hp (hc hpre)
            · exact ⟨_, rfl⟩

theorem do_error_characterization_witness :
    ((startswith (String.toList "brightness:")
          (String.toList "brightness:abc") = true ∧
        pyInt ((String.toList "brightness:abc").drop 11) = none) ∨
      (startswith (String.toList "tunable_white:")
          (String.toList "brightness:abc") = true ∧
        pyInt ((String.toList "brightness:abc").drop 14) = none) ∨
      (startswith (String.toList "color_temperature:")
          (String.toList "brightness:abc") = true ∧
        pyInt ((String.toList "brightness:abc").drop 18) = none)) ∧
    ∃ r, sampleBare.doAction (String.toList "on") = Except.ok r :=
  ⟨(do_error_characterization sampleBare (String.toList "brightness:abc")).1
      "ValueError: invalid literal for int() with base 10" rfl,
    (do_error_characterization sampleBare (String.toList "on")).2
      (by decide) (by decide) (by decide)⟩

/-- C9 as stated is false: a Light constructed directly (not via
`from_config`) with omitted `min_kelvin` / `max_kelvin` stores the absent
value, not the documented defaults 2700 / 6000. -/
theorem default_kelvin_counterexample :
    ¬ ((Light.init "L" none none none none none none none none none none
          none none none none).min_kelvin = some 2700 ∧
        (Light.init "L" none none none none none none none none none none
          none none none none).max_kelvin = some 6000) := by decide

/-- C9 amended: the 2700 / 6000 defaults are applied only on the
`from_config` path (when the configuration omits the kelvin keys); direct
construction stores `min_kelvin` / `max_kelvin` exactly as passed (absent
when omitted), and no operation of this core validates or modifies the
stored bounds. -/
theorem kelvin_storage (nm : String) (cfg : LightConfig)
    (gs gss gb gbs gc gcs gr grs gtw gtws gct gcts mkv xkv : Option Nat)
    (l : Light) (n : Int) (t : Telegram) (a : List Char) (l' : Light)
    (e : List Event) :
    (cfg.min_kelvin = none →
      (Light.from_config nm cfg).min_kelvin = some 2700) ∧
    (cfg.max_kelvin = none →
      (Light.from_config nm cfg).max_kelvin = some 6000) ∧
    (∀ v, cfg.min_kelvin = some v →
      (Light.from_config nm cfg).min_kelvin = some v) ∧
    (∀ v, cfg.max_kelvin = some v →
      (Light.from_config nm cfg).max_kelvin = some v) ∧
    ((Light.init nm gs gss gb gbs gc gcs gr grs gtw gtws gct gcts mkv
        xkv).min_kelvin = mkv) ∧
    ((Light.init nm gs gss gb gbs gc gcs gr grs gtw gtws gct gcts mkv
        xkv).max_kelvin = xkv) ∧
    ((l.set_brightness n).1.min_kelvin = l.min_kelvin ∧
      (l.set_brightness n).1.max_kelvin = l.max_kelvin) ∧
    (((l.process_group_write t).1).min_kelvin = l.min_kelvin ∧
      ((l.process_group_write t).1).max_kelvin = l.max_kelvin) ∧
    (l.doAction a = Except.ok (l', e) →
      l'.min_kelvin = l.min_kelvin ∧ l'.max_kelvin = l.max_kelvin) := by
  refine ⟨?_, ?_, ?_, ?_, rfl, rfl, ?_, ⟨pgw_min_kelvin l t, pgw_max_kelvin l t⟩, ?_⟩
  · intro h
    unfold from_config init
    rw [h]
    rfl
  · intro h
    unfold from_config init
    rw [h]
    rfl
  · intro v h
    unfold from_config init
    rw [h]
    rfl
  · intro v h
    unfold from_config init
    rw [h]
    rfl
  · rw [set_brightness_fst]
    exact ⟨rfl, rfl⟩
  · intro h
    rw [doAction_ok_fst l a l' e h]
    exact ⟨rfl, rfl⟩

theorem kelvin_storage_witness :
    (Light.from_config "cw"
        ⟨some 1, none, none, none, none, none, none, none, none, none, none,
          none, none, none⟩).min_kelvin = some 2700 ∧
    (Light.from_config "cw"
        ⟨some 1, none, none, none, none, none, none, none, none, none, none,
          none, none, none⟩).max_kelvin = some 6000 ∧
    (Light.from_config "cw"
        ⟨some 1, none, none, none, none, none, none, none, none, none, none,
          none, some 3000, some 5000⟩).min_kelvin = some 3000 ∧
    sampleFull.min_kelvin = sampleFull.min_kelvin := by
  have h1 := kelvin_storage "cw"
    ⟨some 1, none, none, none, none, none, none, none, none, none, none,
      none, none, none⟩ (some 1) none none none none none none none none
    none none none none none sampleFull 1 ⟨1, [1]⟩ (String.toList "on")
    sampleFull [Event.busWrite SlotId.switch (BusVal.b true)]
  have h2 := kelvin_storage "cw"
    ⟨some 1, none, none, none, none, none, none, none, none, none, none,
      none, some 3000, some 5000⟩ (some 1) none none none none none none
    none none none none none none none sampleFull 1 ⟨1, [1]⟩
    (String.toList "on") sampleFull
    [Event.busWrite SlotId.switch (BusVal.b true)]
  exact ⟨h1.1 rfl, h1.2.1 rfl, h2.2.2.1 3000 rfl,
    (h1.2.2.2.2.2.2.2.2 rfl).1.symm ▸ rfl⟩

/-- C10: on read, RGBW takes precedence over plain color: with RGBW support
`current_color` is computed from the rgbw slot's cached value alone
(returning the absent pair when that slot holds no value) and the plain
color slot's cached value is consulted only when RGBW is unsupported. -/
theorem current_color_rgbw_precedence (l : Light) (v : List Nat) :
    (l.supports_rgbw = true → l.rgbw.value = none →
      l.current_color = (none, none)) ∧
    (l.supports_rgbw = true → l.rgbw.value = some v → v.length = 4 →
      l.current_color = (some (v.take 3), v.get? 3)) ∧
    (l.supports_rgbw = false → l.current_color = (l.color.value, none)) := by
  refine ⟨?_, ?_, ?_⟩
  · intro h hv
    unfold current_color
    rw [h, hv]
    rfl
  · intro h hv hlen
    unfold current_color
    rw [h, hv]
    have hne : ¬ v = [] := by
      intro e
      rw [e] at hlen
      exact absurd hlen (by decide)
    simp [hne]
  · intro h
    unfold current_color
    rw [h]
    rfl

theorem current_color_rgbw_precedence_witness :
    sampleRGBW.current_color = (some [10, 20, 30], some 40) ∧
    sampleFull.current_color = (none, none) ∧
    sampleBare.current_color = (none, none) :=
  ⟨(current_color_rgbw_precedence sampleRGBW [10, 20, 30, 40]).2.1 rfl rfl rfl,
    (current_color_rgbw_precedence sampleFull []).1 rfl rfl,
    (current_color_rgbw_precedence sampleBare []).2.2 rfl⟩

end Light

end XKnx
